import Mathlib

/-!
Shallow embedding of `src/index.js`, a small Express gateway that forwards
prompts and media attachments to a generative-text provider.

The dynamic JavaScript values flowing through `extractGeneratedText` are
modelled by the inductive type `JSValue` (acyclic JSON-like trees plus
`undefined`).  Optional chaining `a?.k` and `a?.[i]` become `jsGet` / `jsIdx`,
the nullish-coalescing operator `??` becomes `nullishCoalesce`, and
`JSON.stringify(data, null, 2)` becomes `stringifyVal` (returning `none`
exactly when JavaScript's `JSON.stringify` returns `undefined`, i.e. on a
top-level `undefined`).  The four route handlers are modelled as pure
functions from their request fields and a provider oracle to the HTTP
response together with the list of provider calls they made.
-/

/-- A JavaScript runtime value, as far as `index.js` inspects one:
`undefined`, `null`, booleans, (integer) numbers, strings, arrays and
plain objects.  Functions, symbols, NaN and cyclic structures are outside
the model. -/
inductive JSValue where
  | vUndefined : JSValue
  | vNull : JSValue
  | vBool : Bool → JSValue
  | vNum : Int → JSValue
  | vStr : String → JSValue
  | vArr : List JSValue → JSValue
  | vObj : List (String × JSValue) → JSValue

/-- `v` is nullish (`null` or `undefined`), the condition tested by `??`
and short-circuited on by `?.`. -/
def JSValue.isNullish : JSValue → Bool
  | JSValue.vUndefined => true
  | JSValue.vNull => true
  | _ => false

/-- `v` is a JavaScript string. -/
def JSValue.isString : JSValue → Bool
  | JSValue.vStr _ => true
  | _ => false

/-- JavaScript truthiness of `v` (as tested by `if (!prompt)`):
`undefined`, `null`, `false`, `0` and the empty string are falsy. -/
def jsTruthy : JSValue → Bool
  | JSValue.vUndefined => false
  | JSValue.vNull => false
  | JSValue.vBool b => b
  | JSValue.vNum n => decide (n ≠ 0)
  | JSValue.vStr s => !s.isEmpty
  | JSValue.vArr _ => true
  | JSValue.vObj _ => true

/-- Optional-chained property access `v?.k`.  A nullish receiver yields
`undefined`; a non-object receiver yields `undefined` for the property
names `index.js` probes (none of them are built-in prototype members). -/
def jsGet (v : JSValue) (k : String) : JSValue :=
  match v with
  | JSValue.vObj fields =>
    match fields.find? (fun kv => kv.1 == k) with
    | some kv => kv.2
    | none => JSValue.vUndefined
  | _ => JSValue.vUndefined

/-- Decimal digits of `n`, most significant first, prepended to `acc`. -/
def natDigitsGo (n : Nat) (acc : List Char) : List Char :=
  if _h : n < 10 then Char.ofNat (48 + n % 10) :: acc
  else natDigitsGo (n / 10) (Char.ofNat (48 + n % 10) :: acc)
termination_by n
decreasing_by omega

/-- Decimal representation of a natural number. -/
def natRepr (n : Nat) : String := String.mk (natDigitsGo n [])

/-- Decimal representation of an integer, as JavaScript prints an integral
number. -/
def intRepr (i : Int) : String :=
  if i < 0 then "-" ++ natRepr i.natAbs else natRepr i.natAbs

/-- Optional-chained element access `v?.[i]`.  Arrays index positionally,
objects look up the stringified key, strings index into their characters;
anything else (or an out-of-range index) yields `undefined`. -/
def jsIdx (v : JSValue) (i : Nat) : JSValue :=
  match v with
  | JSValue.vArr xs =>
    match xs.get? i with
    | some x => x
    | none => JSValue.vUndefined
  | JSValue.vObj _ => jsGet v (natRepr i)
  | JSValue.vStr s =>
    match s.toList.get? i with
    | some c => JSValue.vStr (String.mk [c])
    | none => JSValue.vUndefined
  | _ => JSValue.vUndefined

/-- The nullish-coalescing operator `a ?? b`. -/
def nullishCoalesce (a b : JSValue) : JSValue :=
  if a.isNullish then b else a

/-- Lower-case hex digit for `n < 16`. -/
def hexDigit (n : Nat) : Char :=
  if n < 10 then Char.ofNat (48 + n) else Char.ofNat (97 + (n - 10))

/-- JSON escaping of one character inside a string literal, as performed by
`JSON.stringify`. -/
def escapeChar (c : Char) : List Char :=
  if c = '"' then ['\\', '"']
  else if c = '\\' then ['\\', '\\']
  else if c = '\n' then ['\\', 'n']
  else if c = '\r' then ['\\', 'r']
  else if c = '\t' then ['\\', 't']
  else if c.toNat < 32 then
    ['\\', 'u', '0', '0', hexDigit (c.toNat / 16), hexDigit (c.toNat % 16)]
  else [c]

/-- A JSON string literal: `s` escaped and wrapped in double quotes. -/
def jsonQuote (s : String) : String :=
  "\"" ++ String.mk (s.toList.foldr (fun c acc => escapeChar c ++ acc) []) ++ "\""

/-- `n` spaces, the indentation emitted by `JSON.stringify(_, null, 2)`. -/
def spaces (n : Nat) : String := String.mk (List.replicate n ' ')

/-- Lines of a pretty-printed composite: each item on its own line at
indentation `ind`, separated by commas. -/
def joinLines (ind : Nat) (items : List String) : String :=
  String.intercalate ",\n" (items.map (fun s => spaces ind ++ s))

mutual

/-- `JSON.stringify(v, null, 2)` at current indentation `ind`: `none`
exactly when JavaScript would return `undefined` (a top-level
`undefined`), otherwise the pretty-printed text. -/
def stringifyVal (ind : Nat) : JSValue → Option String
  | JSValue.vUndefined => none
  | JSValue.vNull => some "null"
  | JSValue.vBool b => some (if b then "true" else "false")
  | JSValue.vNum n => some (intRepr n)
  | JSValue.vStr s => some (jsonQuote s)
  | JSValue.vArr xs =>
    some (match stringifyItems (ind + 2) xs with
      | [] => "[]"
      | items => "[\n" ++ joinLines (ind + 2) items ++ "\n" ++ spaces ind ++ "]")
  | JSValue.vObj fields =>
    some (match stringifyFields (ind + 2) fields with
      | [] => "\x7b\x7d"
      | items => "\x7b\n" ++ joinLines (ind + 2) items ++ "\n" ++ spaces ind ++ "\x7d")

/-- Array elements: an `undefined` element prints as `null`. -/
def stringifyItems (ind : Nat) : List JSValue → List String
  | [] => []
  | x :: xs =>
    (match stringifyVal ind x with
      | some s => s
      | none => "null") :: stringifyItems ind xs

/-- Object properties: a property whose value is `undefined` is omitted. -/
def stringifyFields (ind : Nat) : List (String × JSValue) → List String
  | [] => []
  | kv :: fields =>
    match stringifyVal ind kv.2 with
    | some s => (jsonQuote kv.1 ++ ": " ++ s) :: stringifyFields ind fields
    | none => stringifyFields ind fields

end

/-- `JSON.stringify(data, null, 2)` as a JavaScript value: a string, or
`undefined` when the input itself is a top-level `undefined`. -/
def jsStringify (data : JSValue) : JSValue :=
  match stringifyVal 0 data with
  | some s => JSValue.vStr s
  | none => JSValue.vUndefined

/-- Probe 1 of `extractGeneratedText`:
`data?.response?.candidates?.[0]?.content?.parts?.[0]?.text`. -/
def jsPath1 (data : JSValue) : JSValue :=
  jsGet (jsIdx (jsGet (jsGet (jsIdx (jsGet (jsGet data "response") "candidates") 0)
    "content") "parts") 0) "text"

/-- Probe 2 of `extractGeneratedText`:
`data?.candidates?.[0]?.content?.parts?.[0]?.text`. -/
def jsPath2 (data : JSValue) : JSValue :=
  jsGet (jsIdx (jsGet (jsGet (jsIdx (jsGet data "candidates") 0) "content") "parts") 0)
    "text"

/-- Probe 3 of `extractGeneratedText`:
`data?.response?.candidates?.[0]?.content?.text`. -/
def jsPath3 (data : JSValue) : JSValue :=
  jsGet (jsGet (jsIdx (jsGet (jsGet data "response") "candidates") 0) "content") "text"

/-- `extractGeneratedText` from `index.js`: try the three probes joined by
`??`, then fall back on `text ?? JSON.stringify(data, null, 2)`.  The
`try/catch` around the body is unreachable in this model: optional chaining
never throws, and `JSON.stringify` throws only on cyclic values, which the
inductive `JSValue` cannot express. -/
def extractGeneratedText (data : JSValue) : JSValue :=
  let text := nullishCoalesce (nullishCoalesce (jsPath1 data) (jsPath2 data)) (jsPath3 data)
  nullishCoalesce text (jsStringify data)

/-- The base64 alphabet, in value order. -/
def base64Chars : List Char :=
  "ABCDEFGHIJKLMNOPQRSTUVWXYZabcdefghijklmnopqrstuvwxyz0123456789+/".toList

/-- The base64 character encoding the 6-bit value `n`. -/
def enc6 (n : Nat) : Char := base64Chars.getD n 'A'

/-- The 6-bit value of a base64 character, `none` for characters outside
the alphabet (in particular for the padding character). -/
def dec6 (c : Char) : Option Nat := base64Chars.findIdx? (fun d => d == c)

/-- Standard padded base64 of a byte sequence, the encoding produced by
Node's `buffer.toString("base64")`: three bytes become four characters,
a one- or two-byte tail is padded with `=`. -/
def base64Encode : List Nat → List Char
  | [] => []
  | [a] => [enc6 (a / 4), enc6 (a % 4 * 16), '=', '=']
  | [a, b] => [enc6 (a / 4), enc6 (a % 4 * 16 + b / 16), enc6 (b % 16 * 4), '=']
  | a :: b :: c :: rest =>
    enc6 (a / 4) :: enc6 (a % 4 * 16 + b / 16) :: enc6 (b % 16 * 4 + c / 64)
      :: enc6 (c % 64) :: base64Encode rest

/-- Decoder for standard padded base64, inverse of `base64Encode` on
well-formed input; used to state that the transport encoding is lossless. -/
def base64Decode : List Char → Option (List Nat)
  | [] => some []
  | w :: x :: y :: z :: rest =>
    match dec6 w, dec6 x with
    | some a, some b =>
      if y = '=' then
        if z = '=' ∧ rest = [] then some [a * 4 + b / 16] else none
      else
        match dec6 y with
        | some c =>
          if z = '=' then
            if rest = [] then some [a * 4 + b / 16, b % 16 * 16 + c / 4] else none
          else
            match dec6 z, base64Decode rest with
            | some d, some bs =>
              some ((a * 4 + b / 16) :: (b % 16 * 16 + c / 4) :: (c % 4 * 64 + d) :: bs)
            | _, _ => none
        | none => none
    | _, _ => none
  | _ => none

/-- The inline-data payload built by `fileToGenerativePart`:
`{ inlineData: { data: <base64>, mimeType } }`. -/
structure InlineData where
  data : String
  mimeType : String
deriving DecidableEq

/-- One element of the array passed to `model.generateContent`: either a
plain text prompt or an inline-data blob. -/
inductive GenPart where
  | text : String → GenPart
  | inlineData : InlineData → GenPart
deriving DecidableEq

/-- `fileToGenerativePart(buffer, mimeType)` from `index.js`: base64-encode
the buffer and tag it with the declared mime type, unchanged. -/
def fileToGenerativePart (buffer : List Nat) (mimeType : String) : GenPart :=
  GenPart.inlineData ⟨String.mk (base64Encode buffer), mimeType⟩

/-- An uploaded file as multer's memory storage presents it to the handler:
the raw bytes and the declared content type. -/
structure FileUpload where
  buffer : List Nat
  mimetype : String

/-- A JavaScript error as caught by the handlers: only its `message` is
inspected. -/
structure JsError where
  message : String

/-- An HTTP response: status code and JSON body. -/
structure HttpResponse where
  status : Nat
  body : JSValue

/-- A provider oracle that resolves every call with the fixed value
`null`; used to instantiate handler theorems at concrete inputs. -/
def okProvider {α : Type} : α → Except JsError JSValue :=
  fun _ => Except.ok JSValue.vNull

/-- A provider oracle that rejects every call with the error `e`; models a
provider fault. -/
def errProvider {α : Type} (e : JsError) : α → Except JsError JSValue :=
  fun _ => Except.error e

/-- Truthiness of a multipart text field: absent (`undefined`) and the
empty string are falsy, any other string is truthy. -/
def fieldTruthy : Option String → Bool
  | none => false
  | some s => !s.isEmpty

/-- `field || dflt`, the default-prompt idiom of the document and audio
handlers: the field's value when truthy, otherwise the default. -/
def jsOr (field : Option String) (dflt : String) : String :=
  match field with
  | some s => if s.isEmpty then dflt else s
  | none => dflt

/-- The `POST /generate-text` handler.  `prompt` is `req.body.prompt` (an
arbitrary JSON value), `provider` models `model.generateContent` resolving
or rejecting.  Returns the HTTP response and the list of provider calls
made; on `/generate-text` the raw prompt value itself is the sole argument
of `generateContent`. -/
def generateTextHandler (prompt : JSValue)
    (provider : JSValue → Except JsError JSValue) : HttpResponse × List JSValue :=
  if !jsTruthy prompt then
    (⟨400, JSValue.vObj [("message", JSValue.vStr "Belum ada prompt yang diisi!")]⟩, [])
  else
    match provider prompt with
    | Except.ok result =>
      (⟨200, JSValue.vObj [("result", extractGeneratedText result)]⟩, [prompt])
    | Except.error e =>
      (⟨500, JSValue.vObj [("message", JSValue.vStr e.message)]⟩, [prompt])

/-- The `POST /generate-from-image` handler.  `prompt` is the multipart
text field (absent or a string), `file` is `req.file`.  When both guards
pass, the prompt is necessarily a non-empty string, so `Option.getD`
in the forwarded text part is only ever evaluated at `some`. -/
def generateFromImageHandler (prompt : Option String) (file : Option FileUpload)
    (provider : List GenPart → Except JsError JSValue) :
    HttpResponse × List (List GenPart) :=
  if !fieldTruthy prompt then
    (⟨400, JSValue.vObj [("message", JSValue.vStr "Belum ada prompt yang diisi!")]⟩, [])
  else
    match file with
    | none =>
      (⟨400, JSValue.vObj [("message",
        JSValue.vStr "File \x27image\x27 harus di-upload!")]⟩, [])
    | some f =>
      let parts := [GenPart.text (prompt.getD ""), fileToGenerativePart f.buffer f.mimetype]
      match provider parts with
      | Except.ok result =>
        (⟨200, JSValue.vObj [("result", extractGeneratedText result)]⟩, [parts])
      | Except.error e =>
        (⟨500, JSValue.vObj [("message", JSValue.vStr e.message)]⟩, [parts])

/-- The `POST /generate-from-document` handler:
`const prompt = req.body.prompt || "Ringkas dokumen ini"`, then the file
guard, then the provider call. -/
def generateFromDocumentHandler (promptField : Option String) (file : Option FileUpload)
    (provider : List GenPart → Except JsError JSValue) :
    HttpResponse × List (List GenPart) :=
  let prompt := jsOr promptField "Ringkas dokumen ini"
  match file with
  | none =>
    (⟨400, JSValue.vObj [("message",
      JSValue.vStr "File \x27document\x27 harus di-upload!")]⟩, [])
  | some f =>
    let parts := [GenPart.text prompt, fileToGenerativePart f.buffer f.mimetype]
    match provider parts with
    | Except.ok result =>
      (⟨200, JSValue.vObj [("result", extractGeneratedText result)]⟩, [parts])
    | Except.error e =>
      (⟨500, JSValue.vObj [("message", JSValue.vStr e.message)]⟩, [parts])

/-- The `POST /generate-from-audio` handler:
`const prompt = req.body.prompt || "Transkripsikan audio ini"`, then the
file guard, then the provider call. -/
def generateFromAudioHandler (promptField : Option String) (file : Option FileUpload)
    (provider : List GenPart → Except JsError JSValue) :
    HttpResponse × List (List GenPart) :=
  let prompt := jsOr promptField "Transkripsikan audio ini"
  match file with
  | none =>
    (⟨400, JSValue.vObj [("message",
      JSValue.vStr "File \x27audio\x27 harus di-upload!")]⟩, [])
  | some f =>
    let parts := [GenPart.text prompt, fileToGenerativePart f.buffer f.mimetype]
    match provider parts with
    | Except.ok result =>
      (⟨200, JSValue.vObj [("result", extractGeneratedText result)]⟩, [parts])
    | Except.error e =>
      (⟨500, JSValue.vObj [("message", JSValue.vStr e.message)]⟩, [parts])

/-! ### Helper lemmas -/

lemma append_ne_empty (a b : String) (h : a ≠ "") : a ++ b ≠ "" := by
  intro hc
  have h2 : a.data ++ b.data = [] := congrArg String.data hc
  exact h (String.ext (List.append_eq_nil.mp h2).1)

lemma natDigitsGo_ne_nil (n : Nat) (acc : List Char) : natDigitsGo n acc ≠ [] := by
  induction n using Nat.strong_induction_on generalizing acc with
  | _ n ih =>
    rcases Nat.lt_or_ge n 10 with h | h
    · unfold natDigitsGo
      rw [dif_pos h]
      simp
    · unfold natDigitsGo
      rw [dif_neg (by omega)]
      exact ih (n / 10) (by omega) _

lemma natRepr_ne_empty (n : Nat) : natRepr n ≠ "" := by
  intro hc
  exact natDigitsGo_ne_nil n [] (congrArg String.data hc)

lemma intRepr_ne_empty (i : Int) : intRepr i ≠ "" := by
  unfold intRepr
  split
  · exact append_ne_empty _ _ (by decide)
  · exact natRepr_ne_empty _

lemma jsonQuote_ne_empty (s : String) : jsonQuote s ≠ "" := by
  unfold jsonQuote
  exact append_ne_empty _ _ (append_ne_empty _ _ (by decide))

/-- On every value other than a top-level `undefined`, the modelled
`JSON.stringify` yields `some` non-empty string. -/
lemma stringifyVal_defined (v : JSValue) (h : v ≠ JSValue.vUndefined) :
    ∃ s, stringifyVal 0 v = some s ∧ s ≠ "" := by
  cases v with
  | vUndefined => exact absurd rfl h
  | vNull => exact ⟨"null", rfl, by decide⟩
  | vBool b =>
    cases b with
    | false => exact ⟨"false", by simp [stringifyVal], by decide⟩
    | true => exact ⟨"true", by simp [stringifyVal], by decide⟩
  | vNum n => exact ⟨intRepr n, by simp [stringifyVal], intRepr_ne_empty n⟩
  | vStr s => exact ⟨jsonQuote s, by simp [stringifyVal], jsonQuote_ne_empty s⟩
  | vArr xs =>
    cases hxs : stringifyItems 2 xs with
    | nil => exact ⟨"[]", by simp [stringifyVal, hxs], by decide⟩
    | cons it its =>
      refine ⟨"[\n" ++ joinLines 2 (it :: its) ++ "\n" ++ spaces 0 ++ "]", ?_, ?_⟩
      · simp [stringifyVal, hxs]
      · exact append_ne_empty _ _ (append_ne_empty _ _ (append_ne_empty _ _ (append_ne_empty _ _ (by decide))))
  | vObj fs =>
    cases hfs : stringifyFields 2 fs with
    | nil => exact ⟨"\x7b\x7d", by simp [stringifyVal, hfs], by decide⟩
    | cons it its =>
      refine ⟨"\x7b\n" ++ joinLines 2 (it :: its) ++ "\n" ++ spaces 0 ++ "\x7d", ?_, ?_⟩
      · simp [stringifyVal, hfs]
      · exact append_ne_empty _ _ (append_ne_empty _ _ (append_ne_empty _ _ (append_ne_empty _ _ (by decide))))

lemma nullishCoalesce_skip (a b : JSValue) (h : a.isNullish = true) :
    nullishCoalesce a b = b := by
  simp [nullishCoalesce, h]

lemma nullishCoalesce_keep (a b : JSValue) (h : a.isNullish = false) :
    nullishCoalesce a b = a := by
  simp [nullishCoalesce, h]

/-- All three probe paths of the extractor are nullish on `data`. -/
def pathsAllNullish (data : JSValue) : Bool :=
  (jsPath1 data).isNullish && (jsPath2 data).isNullish && (jsPath3 data).isNullish

/-- A provider response populating all three probe paths with distinct
texts: probe 1 finds "first", probe 2 "second", probe 3 "third". -/
def sampleFull : JSValue :=
  JSValue.vObj [
    ("response", JSValue.vObj [
      ("candidates", JSValue.vArr [
        JSValue.vObj [
          ("content", JSValue.vObj [
            ("parts", JSValue.vArr [JSValue.vObj [("text", JSValue.vStr "first")]]),
            ("text", JSValue.vStr "third")])]])]),
    ("candidates", JSValue.vArr [
      JSValue.vObj [
        ("content", JSValue.vObj [
          ("parts", JSValue.vArr [JSValue.vObj [("text", JSValue.vStr "second")]])])]])]

/-- A provider response whose first probe path holds the empty string. -/
def sampleEmptyText : JSValue :=
  JSValue.vObj [
    ("response", JSValue.vObj [
      ("candidates", JSValue.vArr [
        JSValue.vObj [
          ("content", JSValue.vObj [
            ("parts", JSValue.vArr [JSValue.vObj [("text", JSValue.vStr "")]])])]])])]

/-- A provider response matching none of the probe paths. -/
def sampleNoText : JSValue := JSValue.vObj [("error", JSValue.vStr "quota exceeded")]

/-! ### Claim theorems -/

/-- C1: `extractGeneratedText` probes the three candidate paths in the
fixed order probe 1, probe 2, probe 3 and returns the value of the first
one that is defined and non-null; in particular when several paths are
simultaneously present the earliest one wins. -/
theorem extractGeneratedText_probe_order (data : JSValue) :
    ((jsPath1 data).isNullish = false → extractGeneratedText data = jsPath1 data) ∧
    ((jsPath1 data).isNullish = true → (jsPath2 data).isNullish = false →
      extractGeneratedText data = jsPath2 data) ∧
    ((jsPath1 data).isNullish = true → (jsPath2 data).isNullish = true →
      (jsPath3 data).isNullish = false → extractGeneratedText data = jsPath3 data) := by
  refine ⟨fun h1 => ?_, fun h1 h2 => ?_, fun h1 h2 h3 => ?_⟩
  · simp only [extractGeneratedText]
    rw [nullishCoalesce_keep _ _ h1, nullishCoalesce_keep _ _ h1, nullishCoalesce_keep _ _ h1]
  · simp only [extractGeneratedText]
    rw [nullishCoalesce_skip _ _ h1, nullishCoalesce_keep _ _ h2, nullishCoalesce_keep _ _ h2]
  · simp only [extractGeneratedText]
    rw [nullishCoalesce_skip _ _ h1, nullishCoalesce_skip _ _ h2, nullishCoalesce_keep _ _ h3]

/-- C1 witness: on a response where all three paths are present with
distinct texts, the extractor returns the text of the first path. -/
theorem extractGeneratedText_probe_order_witness :
    extractGeneratedText sampleFull = jsPath1 sampleFull ∧
    jsPath1 sampleFull = JSValue.vStr "first" ∧
    jsPath2 sampleFull = JSValue.vStr "second" ∧
    jsPath3 sampleFull = JSValue.vStr "third" :=
  ⟨(extractGeneratedText_probe_order sampleFull).1 rfl, rfl, rfl, rfl⟩

/-- C2 counterexample: on the input `undefined` no candidate path
resolves, yet the extractor does not return a string: it returns
`undefined`, because `JSON.stringify(undefined, null, 2)` is itself
`undefined` rather than a serialization. -/
theorem extractGeneratedText_undefined_not_string :
    pathsAllNullish JSValue.vUndefined = true ∧
    (extractGeneratedText JSValue.vUndefined).isString = false :=
  ⟨rfl, rfl⟩

/-- C2 (amended): for every defined input value on which no candidate path
resolves to a defined non-null value, the extractor returns the non-empty
pretty-printed serialization of the entire input as a plain string; being
a total function on the modelled (acyclic) value domain, it never throws
there. -/
theorem extractGeneratedText_fallback (data : JSValue)
    (hd : data ≠ JSValue.vUndefined) (hp : pathsAllNullish data = true) :
    ∃ s, extractGeneratedText data = JSValue.vStr s ∧ s ≠ "" := by
  simp only [pathsAllNullish, Bool.and_eq_true] at hp
  obtain ⟨⟨h1, h2⟩, h3⟩ := hp
  obtain ⟨s, hs, hne⟩ := stringifyVal_defined data hd
  refine ⟨s, ?_, hne⟩
  simp [extractGeneratedText, nullishCoalesce, h1, h2, h3, jsStringify, hs]

/-- C2 witness: a response carrying only an error field takes the fallback
and yields a non-empty string. -/
theorem extractGeneratedText_fallback_witness :
    ∃ s, extractGeneratedText sampleNoText = JSValue.vStr s ∧ s ≠ "" :=
  extractGeneratedText_fallback sampleNoText (fun h => JSValue.noConfusion h) rfl

/-- C10: a candidate path that resolves to the empty string wins: the
extractor returns `""` rather than the serialized dump, the fallback being
reserved for the case where every path is null or undefined. -/
theorem extractGeneratedText_empty_string (data : JSValue) :
    (jsPath1 data = JSValue.vStr "" → extractGeneratedText data = JSValue.vStr "") ∧
    ((jsPath1 data).isNullish = true → jsPath2 data = JSValue.vStr "" →
      extractGeneratedText data = JSValue.vStr "") ∧
    ((jsPath1 data).isNullish = true → (jsPath2 data).isNullish = true →
      jsPath3 data = JSValue.vStr "" → extractGeneratedText data = JSValue.vStr "") := by
  refine ⟨fun h1 => ?_, fun h1 h2 => ?_, fun h1 h2 h3 => ?_⟩
  · have h1n : (jsPath1 data).isNullish = false := by rw [h1]; rfl
    simp only [extractGeneratedText]
    rw [nullishCoalesce_keep _ _ h1n, nullishCoalesce_keep _ _ h1n,
      nullishCoalesce_keep _ _ h1n, h1]
  · have h2n : (jsPath2 data).isNullish = false := by rw [h2]; rfl
    simp only [extractGeneratedText]
    rw [nullishCoalesce_skip _ _ h1, nullishCoalesce_keep _ _ h2n,
      nullishCoalesce_keep _ _ h2n, h2]
  · have h3n : (jsPath3 data).isNullish = false := by rw [h3]; rfl
    simp only [extractGeneratedText]
    rw [nullishCoalesce_skip _ _ h1, nullishCoalesce_skip _ _ h2,
      nullishCoalesce_keep _ _ h3n, h3]

/-- C10 witness: a response whose first path holds `""` makes the
extractor return `""`. -/
theorem extractGeneratedText_empty_string_witness :
    extractGeneratedText sampleEmptyText = JSValue.vStr "" :=
  (extractGeneratedText_empty_string sampleEmptyText).1 rfl

lemma dec6_enc6_fin : ∀ n : Fin 64, dec6 (enc6 n.val) = some n.val := by decide

lemma dec6_enc6 (n : Nat) (h : n < 64) : dec6 (enc6 n) = some n := dec6_enc6_fin ⟨n, h⟩

lemma enc6_ne_pad_fin : ∀ n : Fin 64, enc6 n.val ≠ '=' := by decide

lemma enc6_ne_pad (n : Nat) (h : n < 64) : enc6 n ≠ '=' := enc6_ne_pad_fin ⟨n, h⟩

/-- Base64 encoding of byte sequences is lossless: decoding recovers
exactly the input bytes. -/
theorem base64_roundtrip : ∀ bs : List Nat, (∀ b ∈ bs, b < 256) →
    base64Decode (base64Encode bs) = some bs
  | [], _ => rfl
  | [a], h => by
    have ha : a < 256 := h a (by simp)
    simp [base64Encode, base64Decode, dec6_enc6 (a / 4) (by omega),
      dec6_enc6 (a % 4 * 16) (by omega)]
    omega
  | [a, b], h => by
    have ha : a < 256 := h a (by simp)
    have hb : b < 256 := h b (by simp)
    have hy := enc6_ne_pad (b % 16 * 4) (by omega)
    simp [base64Encode, base64Decode, dec6_enc6 (a / 4) (by omega),
      dec6_enc6 (a % 4 * 16 + b / 16) (by omega), dec6_enc6 (b % 16 * 4) (by omega), hy]
    omega
  | a :: b :: c :: rest, h => by
    have ha : a < 256 := h a (by simp)
    have hb : b < 256 := h b (by simp)
    have hc : c < 256 := h c (by simp)
    have ih := base64_roundtrip rest (fun x hx => h x (by simp [hx]))
    have hy := enc6_ne_pad (b % 16 * 4 + c / 64) (by omega)
    have hz := enc6_ne_pad (c % 64) (by omega)
    simp [base64Encode, base64Decode, dec6_enc6 (a / 4) (by omega),
      dec6_enc6 (a % 4 * 16 + b / 16) (by omega),
      dec6_enc6 (b % 16 * 4 + c / 64) (by omega), dec6_enc6 (c % 64) (by omega),
      hy, hz, ih]
    omega

/-- A concrete upload used to instantiate handler theorems. -/
def sampleFile : FileUpload := ⟨[0, 255, 7, 9, 128], "image/png"⟩

/-- C3: on an image request that passes validation, the normalizer sends
the provider exactly the two parts `[Text, Blob]` in that order, the
blob's payload is the base64 encoding of the upload's bytes with the
declared content type passed through unchanged, and decoding that payload
recovers exactly the original bytes. -/
theorem imageHandler_parts_roundtrip (s : String) (f : FileUpload)
    (provider : List GenPart → Except JsError JSValue)
    (hs : s ≠ "") (hb : ∀ b ∈ f.buffer, b < 256) :
    (generateFromImageHandler (some s) (some f) provider).2 =
      [[GenPart.text s, fileToGenerativePart f.buffer f.mimetype]] ∧
    fileToGenerativePart f.buffer f.mimetype =
      GenPart.inlineData ⟨String.mk (base64Encode f.buffer), f.mimetype⟩ ∧
    base64Decode (base64Encode f.buffer) = some f.buffer := by
  refine ⟨?_, rfl, base64_roundtrip f.buffer hb⟩
  have hne : s.isEmpty = false := by
    cases hse : s.isEmpty
    · rfl
    · exact absurd ((String.isEmpty_iff s).mp hse) hs
  cases hp : provider [GenPart.text s, fileToGenerativePart f.buffer f.mimetype] with
  | ok r => simp [generateFromImageHandler, fieldTruthy, hne, hp]
  | error e => simp [generateFromImageHandler, fieldTruthy, hne, hp]

/-- C3 witness: a concrete prompt and five-byte upload. -/
theorem imageHandler_parts_roundtrip_witness :
    (generateFromImageHandler (some "describe") (some sampleFile) okProvider).2 =
      [[GenPart.text "describe", fileToGenerativePart sampleFile.buffer sampleFile.mimetype]] ∧
    fileToGenerativePart sampleFile.buffer sampleFile.mimetype =
      GenPart.inlineData ⟨String.mk (base64Encode sampleFile.buffer), sampleFile.mimetype⟩ ∧
    base64Decode (base64Encode sampleFile.buffer) = some sampleFile.buffer :=
  imageHandler_parts_roundtrip "describe" sampleFile okProvider (by decide)
    (by simp [sampleFile])

/-- C4: a missing or empty prompt on `/generate-text` yields HTTP 400 with
no provider call, and the provider is called only when the prompt check
passes. -/
theorem generateText_missing_prompt (prompt : JSValue)
    (provider : JSValue → Except JsError JSValue) :
    ((prompt = JSValue.vUndefined ∨ prompt = JSValue.vStr "") →
      (generateTextHandler prompt provider).1.status = 400 ∧
      (generateTextHandler prompt provider).2 = []) ∧
    ((generateTextHandler prompt provider).2 ≠ [] → jsTruthy prompt = true) := by
  constructor
  · rintro (rfl | rfl) <;> exact ⟨rfl, rfl⟩
  · intro hne
    cases ht : jsTruthy prompt
    · exact absurd (by simp [generateTextHandler, ht]) hne
    · rfl

/-- C4 witness: an absent prompt is rejected with 400 and no provider
call. -/
theorem generateText_missing_prompt_witness :
    (generateTextHandler JSValue.vUndefined okProvider).1.status = 400 ∧
    (generateTextHandler JSValue.vUndefined okProvider).2 = [] :=
  (generateText_missing_prompt JSValue.vUndefined okProvider).1 (Or.inl rfl)

/-- C5: a missing attachment on the image, document and audio endpoints
yields HTTP 400 with no provider call. -/
theorem missing_file_yields_400 (p : Option String)
    (provider : List GenPart → Except JsError JSValue) :
    ((generateFromImageHandler p none provider).1.status = 400 ∧
      (generateFromImageHandler p none provider).2 = []) ∧
    ((generateFromDocumentHandler p none provider).1.status = 400 ∧
      (generateFromDocumentHandler p none provider).2 = []) ∧
    ((generateFromAudioHandler p none provider).1.status = 400 ∧
      (generateFromAudioHandler p none provider).2 = []) := by
  refine ⟨?_, ⟨rfl, rfl⟩, ⟨rfl, rfl⟩⟩
  cases hf : fieldTruthy p with
  | false => exact ⟨by simp [generateFromImageHandler, hf], by simp [generateFromImageHandler, hf]⟩
  | true => exact ⟨by simp [generateFromImageHandler, hf], by simp [generateFromImageHandler, hf]⟩

/-- C6: an omitted prompt on the document and audio endpoints is replaced
by the endpoint's fixed default - a summarization instruction for
documents, a transcription instruction for audio - the two defaults are
distinct, and such requests are not rejected. -/
theorem default_prompts (f : FileUpload)
    (provider : List GenPart → Except JsError JSValue) :
    (generateFromDocumentHandler none (some f) provider).2 =
      [[GenPart.text "Ringkas dokumen ini", fileToGenerativePart f.buffer f.mimetype]] ∧
    (generateFromAudioHandler none (some f) provider).2 =
      [[GenPart.text "Transkripsikan audio ini", fileToGenerativePart f.buffer f.mimetype]] ∧
    (generateFromDocumentHandler none (some f) provider).1.status ≠ 400 ∧
    (generateFromAudioHandler none (some f) provider).1.status ≠ 400 ∧
    "Ringkas dokumen ini" ≠ "Transkripsikan audio ini" := by
  refine ⟨?_, ?_, ?_, ?_, by decide⟩
  · cases hp : provider [GenPart.text "Ringkas dokumen ini",
      fileToGenerativePart f.buffer f.mimetype] with
    | ok r => simp [generateFromDocumentHandler, jsOr, hp]
    | error e => simp [generateFromDocumentHandler, jsOr, hp]
  · cases hp : provider [GenPart.text "Transkripsikan audio ini",
      fileToGenerativePart f.buffer f.mimetype] with
    | ok r => simp [generateFromAudioHandler, jsOr, hp]
    | error e => simp [generateFromAudioHandler, jsOr, hp]
  · cases hp : provider [GenPart.text "Ringkas dokumen ini",
      fileToGenerativePart f.buffer f.mimetype] with
    | ok r => simp [generateFromDocumentHandler, jsOr, hp]
    | error e => simp [generateFromDocumentHandler, jsOr, hp]
  · cases hp : provider [GenPart.text "Transkripsikan audio ini",
      fileToGenerativePart f.buffer f.mimetype] with
    | ok r => simp [generateFromAudioHandler, jsOr, hp]
    | error e => simp [generateFromAudioHandler, jsOr, hp]

/-- C7 counterexample: the whitespace-only prompt, empty after trimming,
does not fail validation: `/generate-text` answers 200 and forwards the
prompt to the provider untrimmed. -/
theorem generateText_whitespace_prompt_forwarded :
    (generateTextHandler (JSValue.vStr "   ") okProvider).1.status = 200 ∧
    (generateTextHandler (JSValue.vStr "   ") okProvider).2 = [JSValue.vStr "   "] :=
  ⟨rfl, rfl⟩

/-- C7 (amended): every truthy prompt - in particular any non-empty
string, even one that is only whitespace - passes validation on
`/generate-text` and is forwarded to the provider unchanged and untrimmed
as the single `generateContent` argument; no trimming is applied and only
falsy prompts fail validation. -/
theorem generateText_forwards_untrimmed (prompt : JSValue)
    (provider : JSValue → Except JsError JSValue) (h : jsTruthy prompt = true) :
    (generateTextHandler prompt provider).2 = [prompt] ∧
    (generateTextHandler prompt provider).1.status ≠ 400 := by
  cases hp : provider prompt with
  | ok r => exact ⟨by simp [generateTextHandler, h, hp], by simp [generateTextHandler, h, hp]⟩
  | error e => exact ⟨by simp [generateTextHandler, h, hp], by simp [generateTextHandler, h, hp]⟩

/-- C7 witness: a prompt with surrounding whitespace is forwarded exactly
as received. -/
theorem generateText_forwards_untrimmed_witness :
    (generateTextHandler (JSValue.vStr " padded ") okProvider).2 =
      [JSValue.vStr " padded "] ∧
    (generateTextHandler (JSValue.vStr " padded ") okProvider).1.status ≠ 400 :=
  generateText_forwards_untrimmed (JSValue.vStr " padded ") okProvider (by decide)

/-- C8: when the provider call rejects with error `e` after validation
passed, every endpoint catches it at the outermost level and answers
HTTP 500 with body `\x7bmessage: e.message\x7d`; the handler models are total, so
no exception escapes them. -/
theorem provider_error_500 (e : JsError) (prompt : JSValue) (s : String) (f : FileUpload)
    (hp : jsTruthy prompt = true) (hs : s ≠ "") :
    (generateTextHandler prompt (errProvider e)).1 =
      ⟨500, JSValue.vObj [("message", JSValue.vStr e.message)]⟩ ∧
    (generateFromImageHandler (some s) (some f) (errProvider e)).1 =
      ⟨500, JSValue.vObj [("message", JSValue.vStr e.message)]⟩ ∧
    (generateFromDocumentHandler none (some f) (errProvider e)).1 =
      ⟨500, JSValue.vObj [("message", JSValue.vStr e.message)]⟩ ∧
    (generateFromAudioHandler none (some f) (errProvider e)).1 =
      ⟨500, JSValue.vObj [("message", JSValue.vStr e.message)]⟩ := by
  have hne : s.isEmpty = false := by
    cases hse : s.isEmpty
    · rfl
    · exact absurd ((String.isEmpty_iff s).mp hse) hs
  refine ⟨?_, ?_, ?_, ?_⟩
  · simp [generateTextHandler, errProvider, hp]
  · simp [generateFromImageHandler, errProvider, fieldTruthy, hne]
  · simp [generateFromDocumentHandler, errProvider, jsOr]
  · simp [generateFromAudioHandler, errProvider, jsOr]

/-- C8 witness: a concrete provider fault "boom" surfaces as 500 with its
message on all four endpoints. -/
theorem provider_error_500_witness :
    (generateTextHandler (JSValue.vStr "hi") (errProvider ⟨"boom"⟩)).1 =
      ⟨500, JSValue.vObj [("message", JSValue.vStr "boom")]⟩ ∧
    (generateFromImageHandler (some "look") (some sampleFile) (errProvider ⟨"boom"⟩)).1 =
      ⟨500, JSValue.vObj [("message", JSValue.vStr "boom")]⟩ ∧
    (generateFromDocumentHandler none (some sampleFile) (errProvider ⟨"boom"⟩)).1 =
      ⟨500, JSValue.vObj [("message", JSValue.vStr "boom")]⟩ ∧
    (generateFromAudioHandler none (some sampleFile) (errProvider ⟨"boom"⟩)).1 =
      ⟨500, JSValue.vObj [("message", JSValue.vStr "boom")]⟩ :=
  provider_error_500 ⟨"boom"⟩ (JSValue.vStr "hi") "look" sampleFile (by decide) (by decide)

/-- C9: on the document and audio endpoints a prompt field that is present
but empty is treated identically to an omitted one - the per-endpoint
default is substituted - so an empty prompt is never forwarded to the
provider on these endpoints. -/
theorem empty_prompt_field_defaults (file : Option FileUpload) (f : FileUpload)
    (provider : List GenPart → Except JsError JSValue) :
    generateFromDocumentHandler (some "") file provider =
      generateFromDocumentHandler none file provider ∧
    generateFromAudioHandler (some "") file provider =
      generateFromAudioHandler none file provider ∧
    (generateFromDocumentHandler (some "") (some f) provider).2 =
      [[GenPart.text "Ringkas dokumen ini", fileToGenerativePart f.buffer f.mimetype]] ∧
    (generateFromAudioHandler (some "") (some f) provider).2 =
      [[GenPart.text "Transkripsikan audio ini", fileToGenerativePart f.buffer f.mimetype]] := by
  have hemp : "".isEmpty = true := rfl
  refine ⟨rfl, rfl, ?_, ?_⟩
  · cases hp : provider [GenPart.text "Ringkas dokumen ini",
      fileToGenerativePart f.buffer f.mimetype] with
    | ok r => simp [generateFromDocumentHandler, jsOr, hemp, hp]
    | error e => simp [generateFromDocumentHandler, jsOr, hemp, hp]
  · cases hp : provider [GenPart.text "Transkripsikan audio ini",
      fileToGenerativePart f.buffer f.mimetype] with
    | ok r => simp [generateFromAudioHandler, jsOr, hemp, hp]
    | error e => simp [generateFromAudioHandler, jsOr, hemp, hp]
